import Mathlib

set_option maxHeartbeats 1000000

/-!
Shallow embedding of the Telegram relay worker (src/worker-D1版本.js).

The model covers the parts the verification is about: the per-user session
row (users table), the gatekeeping pipeline of handlePrivateMessage
(command dispatch, block check, admin bypass, verification, keyword-block,
content-type filter, auto-reply), the relay engine handleRelayToTopic with
its create/copy retry logic, edited-message reconciliation
(handleRelayEditedMessage), the colon-delimited callback-data protocol and
the admin permission check of handleCallbackQuery, and the
parseInt-with-fallback resolution of the block threshold.

External collaborators are modelled as oracles/parameters: the JS regex
engine appears as a function String → String → Option Bool (none models a
thrown exception for an invalid pattern, mirroring the per-pattern
try/catch), and transport calls appear as explicit outcome parameters.
The session argument of the pipeline denotes the stored users row (created
on demand with the defaults of dbUserGetOrCreate).
-/

/-- Verification lifecycle of a user session (users.user_state). -/
inductive UserState
  | new
  | pending_verification
  | verified
  deriving DecidableEq, Repr

/-- Position of a state along the lifecycle new → pending_verification → verified. -/
def stateRank : UserState → Nat
  | .new => 0
  | .pending_verification => 1
  | .verified => 2

/-- A users-table row as read by dbUserGetOrCreate: user_state, is_blocked,
block_count and the bound topic (thread) id. -/
structure Session where
  user_state : UserState
  is_blocked : Bool
  block_count : Nat
  topic_id : Option String
  deriving DecidableEq, Repr

/-- Chat type of message.forward_from_chat (only 'channel' matters to the filter). -/
inductive ChatType
  | channel
  | group
  | supergroup
  | privateChat
  deriving DecidableEq, Repr

/-- An inbound Telegram message, restricted to the fields the worker reads.
Absent string fields are the empty string (falsy in JS), absent objects are
none/false, and entities keeps the JS distinction between an absent array
and an empty one. -/
structure Msg where
  text : String := ""
  caption : String := ""
  forward_from : Bool := false
  forward_from_chat : Option ChatType := none
  audio : Bool := false
  voice : Bool := false
  sticker : Bool := false
  animation : Bool := false
  photo : Bool := false
  video : Bool := false
  document : Bool := false
  entities : Option (List String) := none
  caption_entities : Option (List String) := none
  deriving DecidableEq, Repr

/-- The seven enable_*_forwarding switches, already resolved to booleans
(the source compares the resolved config string with 'true'). -/
structure Filters where
  media : Bool
  link : Bool
  text : Bool
  channel_forward : Bool
  any_forward : Bool
  audio_voice : Bool
  sticker_gif : Bool
  deriving DecidableEq, Repr

/-- Outcome of the content-type filter section: the isForwardable flag and
the filterReason string it accumulates. -/
structure FilterOutcome where
  isForwardable : Bool
  filterReason : String
  deriving DecidableEq, Repr

def reasonAnyForward : String := "转发消息 (来自用户/群组/频道)"

def reasonChannelForward : String := "频道转发消息"

def reasonAudioVoice : String := "音频或语音消息"

def reasonStickerGif : String := "贴纸或GIF"

def reasonMedia : String := "媒体内容（图片/视频/文件）"

def reasonLinkOnly : String := "包含链接的内容"

def reasonLinkSuffix : String := " (并包含链接)"

def reasonPureText : String := "纯文本内容"

/-- hasLinks of handlePrivateMessage: msg.entities, or else
msg.caption_entities, or else the empty list; true when some entity is a
url or text_link. -/
def hasLinks (m : Msg) : Bool :=
  let es := match m.entities with
    | some es => es
    | none => match m.caption_entities with
      | some es => es
      | none => []
  es.any (fun t => t == "url" || t == "text_link")

/-- The isPureText test of handlePrivateMessage: nonempty text and none of
the media/forward fields. -/
def isPureText (m : Msg) : Bool :=
  (m.text != "") && !m.photo && !m.video && !m.document && !m.sticker &&
    !m.audio && !m.voice && m.forward_from_chat.isNone && !m.forward_from && !m.animation

/-- The content-type filter of handlePrivateMessage: the if/else-if
classification chain (forwarded, audio/voice, sticker/animation, media),
then the link check guarded by isForwardable, then the pure-text check
guarded by isForwardable. -/
def contentFilter (f : Filters) (m : Msg) : FilterOutcome :=
  let step1 : FilterOutcome :=
    if m.forward_from || m.forward_from_chat.isSome then
      if !f.any_forward then ⟨false, reasonAnyForward⟩
      else if m.forward_from_chat == some ChatType.channel && !f.channel_forward then
        ⟨false, reasonChannelForward⟩
      else ⟨true, ""⟩
    else if m.audio || m.voice then
      if !f.audio_voice then ⟨false, reasonAudioVoice⟩ else ⟨true, ""⟩
    else if m.sticker || m.animation then
      if !f.sticker_gif then ⟨false, reasonStickerGif⟩ else ⟨true, ""⟩
    else if m.photo || m.video || m.document then
      if !f.media then ⟨false, reasonMedia⟩ else ⟨true, ""⟩
    else ⟨true, ""⟩
  let step2 : FilterOutcome :=
    if step1.isForwardable && hasLinks m then
      if !f.link then
        ⟨false, if step1.filterReason != "" then step1.filterReason ++ reasonLinkSuffix
                else reasonLinkOnly⟩
      else step1
    else step1
  if step2.isForwardable && isPureText m then
    if !f.text then ⟨false, reasonPureText⟩ else step2
  else step2

/-- Value of a digit string, most significant first. -/
def digitsToNat (ds : List Char) : Nat :=
  ds.foldl (fun acc c => acc * 10 + (c.toNat - Char.toNat '0')) 0

/-- JS parseInt(s, 10): skip leading whitespace, optional sign, then the
longest prefix of decimal digits; none models NaN (no digits). -/
def jsParseInt10 (s : String) : Option Int :=
  let cs := s.data.dropWhile (fun c => c.isWhitespace)
  let signAndRest : Int × List Char :=
    match cs with
    | '-' :: r => (-1, r)
    | '+' :: r => (1, r)
    | r => (1, r)
  let ds := signAndRest.2.takeWhile (fun c => c.isDigit)
  if ds.isEmpty then none
  else some (signAndRest.1 * (digitsToNat ds : Int))

/-- parseInt(getConfig('block_threshold'), 10) || 5 — NaN and 0 both fall
back to the hardcoded 5. -/
def effectiveBlockThreshold (s : String) : Int :=
  match jsParseInt10 s with
  | none => 5
  | some n => if n = 0 then 5 else n

/-- An auto-reply rule as stored in keyword_responses. -/
structure AutoRule where
  keywords : String
  response : String
  id : Nat
  deriving DecidableEq, Repr

/-- The auto-reply loop: first rule whose keywords regex matches the text
wins; an invalid regex (oracle returns none, modelling the caught
exception) is skipped. -/
def findAutoReply (rtest : String → String → Option Bool) :
    List AutoRule → String → Option String
  | [], _ => none
  | r :: rs, t =>
    if rtest r.keywords t = some true then some r.response
    else findAutoReply rtest rs t

/-- One outbound sendMessage of the private-message pipeline, tagged by its
call site. -/
inductive Reply
  | adminMenu
  | welcome (t : String)
  | verifQuestion (t : String)
  | adminConfigFlow
  | verifySuccess
  | verifyFail
  | blockWarning (count : Nat) (threshold : Int)
  | autoBlocked
  | filtered (reason : String)
  | autoReplyMsg (response : String)
  | useStart
  deriving DecidableEq, Repr

/-- The resolved environment/config the private-message pipeline reads:
admin status of the sender, the sender's pending admin-edit state, the
resolved config scalars, the two rule lists, the filter switches and the
regex-test oracle. -/
structure BotEnv where
  isAdmin : Bool
  adminState : Option String
  welcome_msg : String
  verif_q : String
  verif_a : String
  block_keywords : List String
  block_threshold : String
  filters : Filters
  auto_rules : List AutoRule
  rtest : String → String → Option Bool

/-- Observable result of one handlePrivateMessage call: the users row after
all dbUserUpdate writes, the replies sent to the user in order, and whether
the message reached handleRelayToTopic. -/
structure PMResult where
  session : Session
  replies : List Reply
  relayed : Bool

/-- handleStart: send the welcome message and the verification question and
set user_state to pending_verification (unconditionally). -/
def handleStartModel (env : BotEnv) (user : Session) : PMResult :=
  ⟨{ user with user_state := .pending_verification },
   [.welcome env.welcome_msg, .verifQuestion env.verif_q], false⟩

/-- The verified branch of handlePrivateMessage: keyword-block check (first
matching pattern fires; invalid patterns skipped), then content-type
filter, then auto-reply, then relay. -/
def verifiedStage (env : BotEnv) (m : Msg) (user : Session) : PMResult :=
  let threshold := effectiveBlockThreshold env.block_threshold
  if env.block_keywords ≠ [] ∧ m.text ≠ "" ∧
      (∃ k ∈ env.block_keywords, env.rtest k m.text = some true) then
    let newCount := user.block_count + 1
    if (newCount : Int) ≥ threshold then
      ⟨{ user with block_count := newCount, is_blocked := true },
       [.blockWarning newCount threshold, .autoBlocked], false⟩
    else
      ⟨{ user with block_count := newCount }, [.blockWarning newCount threshold], false⟩
  else
    let fo := contentFilter env.filters m
    if fo.isForwardable = false then ⟨user, [.filtered fo.filterReason], false⟩
    else
      match (if env.auto_rules ≠ [] ∧ m.text ≠ "" then
               findAutoReply env.rtest env.auto_rules m.text else none) with
      | some resp => ⟨user, [.autoReplyMsg resp], false⟩
      | none => ⟨user, [], true⟩

/-- The switch on user_state at the end of handlePrivateMessage:
pending_verification routes to handleVerification (exact, untrimmed string
comparison with the configured answer), new replies with the prompt to use
the start command, verified runs the keyword/filter/auto-reply/relay
stages. -/
def stateDispatch (env : BotEnv) (m : Msg) (user : Session) : PMResult :=
  match user.user_state with
  | .pending_verification =>
      if m.text = env.verif_a then
        ⟨{ user with user_state := .verified }, [.verifySuccess], false⟩
      else ⟨user, [.verifyFail], false⟩
  | .new => ⟨user, [.useStart], false⟩
  | .verified => verifiedStage env m user

/-- handlePrivateMessage: command dispatch first, then the blocked check,
then admin edit-state consumption and admin force-verify, then the
state-dependent pipeline. -/
def handlePrivateMessage (env : BotEnv) (m : Msg) (user : Session) : PMResult :=
  if m.text = "/start" ∨ m.text = "/help" then
    if env.isAdmin then ⟨user, [.adminMenu], false⟩ else handleStartModel env user
  else if user.is_blocked then ⟨user, [], false⟩
  else if env.isAdmin ∧ env.adminState.isSome then ⟨user, [.adminConfigFlow], false⟩
  else
    stateDispatch env m
      (if env.isAdmin ∧ user.user_state ≠ .verified
       then { user with user_state := .verified } else user)

/-- Session evolution under a sequence of inbound private messages. -/
def runMessages (env : BotEnv) (msgs : List Msg) (s : Session) : Session :=
  msgs.foldl (fun u m => (handlePrivateMessage env m u).session) s

/-- Outcome of one createTopicForUser call. createForumTopic failing throws
before anything is persisted; the info-card send failing throws after the
topic binding was already persisted by dbUserUpdate. -/
inductive CreateOutcome
  | failCreate
  | failCard (id : String)
  | ok (id : String)
  deriving DecidableEq, Repr

/-- A failure notice handleRelayToTopic sends to the user, by call site. -/
inductive RelayNotice
  | createFail
  | recreateFail
  | copyFail
  deriving DecidableEq, Repr

/-- Observable result of handleRelayToTopic: the topic_id column after all
dbUserUpdate writes, the notices sent to the user, the topic the message
was actually copied into (if any), and whether the message ledger row was
written. -/
structure RelayResult where
  finalTopic : Option String
  notices : List RelayNotice
  copiedTo : Option String
  ledgerWrite : Bool
  deriving DecidableEq, Repr

/-- The copy-with-recovery phase of handleRelayToTopic, entered with a
bound topic. On copy failure: clear the binding, run createTopicForUser
again (outcome o2), and retry the copy exactly once (copyB); a failed
retry sends the copy-failure notice but keeps the freshly persisted
binding. -/
def relayCopyPhase (topicId : String) (o2 : CreateOutcome) (copyA copyB hasText : Bool) :
    RelayResult :=
  if copyA then ⟨some topicId, [], some topicId, hasText⟩
  else
    match o2 with
    | .failCreate => ⟨none, [.recreateFail], none, false⟩
    | .failCard id => ⟨some id, [.recreateFail], none, false⟩
    | .ok id =>
      if copyB then ⟨some id, [], some id, hasText⟩
      else ⟨some id, [.copyFail], none, false⟩

/-- handleRelayToTopic: ensure a topic exists (outcome o1 of the first
createTopicForUser call when the session is thread-less), then copy the
message with the single-recovery policy of relayCopyPhase; after a
successful copy, a text message is recorded in the message ledger. -/
def handleRelayToTopic (user : Session) (o1 o2 : CreateOutcome) (copyA copyB hasText : Bool) :
    RelayResult :=
  match user.topic_id with
  | none =>
    match o1 with
    | .failCreate => ⟨none, [.createFail], none, false⟩
    | .failCard id => ⟨some id, [.createFail], none, false⟩
    | .ok id => relayCopyPhase id o2 copyA copyB hasText
  | some t => relayCopyPhase t o2 copyA copyB hasText

/-- A messages-table row: text and original send date. -/
structure StoredMsg where
  text : String
  date : Nat
  deriving DecidableEq, Repr

/-- The original-send-time field of the edit notification: either the
stored timestamp (rendered by toLocaleString) or the placeholder for a
missing ledger entry. -/
inductive DateRepr
  | unknown
  | known (t : Nat)
  deriving DecidableEq, Repr

/-- Contents of the edit notification sent into the thread. -/
structure EditNotif where
  originalText : String
  originalDate : DateRepr
  newContent : String
  deriving DecidableEq, Repr

/-- Observable result of handleRelayEditedMessage: the notification (none
when the handler returned before notifying) and the ledger write. -/
structure EditResult where
  notif : Option EditNotif
  ledgerWrite : Option StoredMsg
  deriving DecidableEq, Repr

def origTextFallback : String := "[原始内容无法获取/非文本内容]"

def newContentFallback : String := "[非文本/媒体说明内容]"

/-- JS a || b on strings: empty is falsy. -/
def jsOr (a b : String) : String := if a ≠ "" then a else b

/-- handleRelayEditedMessage: without a bound topic, return silently; with
one, read the ledger entry, build the notification (falling back to the
placeholders when the entry or its text is missing), and — only when an
entry exists — overwrite it with the new text while keeping the stored
date. -/
def handleRelayEditedMessage (topic : Option String) (stored : Option StoredMsg)
    (etext ecaption : String) : EditResult :=
  match topic with
  | none => ⟨none, none⟩
  | some _ =>
    let originalText := match stored with
      | some d => jsOr d.text origTextFallback
      | none => origTextFallback
    let originalDate := match stored with
      | some d => DateRepr.known d.date
      | none => DateRepr.unknown
    let ledgerWrite := match stored with
      | some d => some (StoredMsg.mk (jsOr etext (jsOr ecaption "")) d.date)
      | none => none
    let newContent := jsOr etext (jsOr ecaption newContentFallback)
    ⟨some ⟨originalText, originalDate, newContent⟩, ledgerWrite⟩

/-- JS String.prototype.split(':') on a character list: splits at every
colon, keeping empty segments; the result is always nonempty. -/
def splitOnColon : List Char → List (List Char)
  | [] => [[]]
  | c :: rest =>
    let r := splitOnColon rest
    if c = ':' then [] :: r
    else
      match r with
      | h :: t => (c :: h) :: t
      | [] => [[c]]

/-- The template literal of handleAdminRuleList building a delete button:
config:delete:key:id. -/
def encodeDeleteCallback (key id : List Char) : List Char :=
  "config:delete:".data ++ key ++ [':'] ++ id

/-- What the delete branch of handleCallbackQuery receives for a given
callback-data string: parts[2] (the key) and parts[3] (the id). -/
def decodeDeleteCallback (data : List Char) : Option (List Char) × Option (List Char) :=
  let parts := splitOnColon data
  (parts[2]?, parts[3]?)

/-- Observable outcome of one handleCallbackQuery call. -/
inductive CbOutcome
  | permissionAlert
  | configFlow
  | ignored
  | pinFlow
  | blockUser (uid : List Char)
  | unblockUser (uid : List Char)
  deriving DecidableEq, Repr

/-- handleCallbackQuery dispatch: config:* is admin-gated (non-admins get
the permission alert and nothing else runs); every other family is only
gated by the message being in the admin group, then dispatched on the
first colon-separated segment with the second segment as the user id. -/
def handleCallbackQueryModel (isAdminSender chatIsAdminGroup : Bool) (data : List Char) :
    CbOutcome :=
  if data.take 7 = "config:".data then
    if isAdminSender = false then .permissionAlert else .configFlow
  else if chatIsAdminGroup = false then .ignored
  else
    let parts := splitOnColon data
    let action := parts.getD 0 []
    if action = "pin_card".data then .pinFlow
    else if action = "block".data then .blockUser (parts.getD 1 [])
    else if action = "unblock".data then .unblockUser (parts.getD 1 [])
    else .ignored

/-- All seven filter switches enabled (every default is 'true'). -/
def allowAllFilters : Filters :=
  { media := true, link := true, text := true, channel_forward := true,
    any_forward := true, audio_voice := true, sticker_gif := true }

/-- A plain non-admin environment with the hardcoded defaults and no rules. -/
def demoEnv : BotEnv :=
  { isAdmin := false, adminState := none, welcome_msg := "w", verif_q := "q", verif_a := "3",
    block_keywords := [], block_threshold := "5", filters := allowAllFilters,
    auto_rules := [], rtest := fun _ _ => some false }

/-- Environment for the threshold-3 keyword-block scenario: one block
pattern whose regex matches everything. -/
def scenarioEnv : BotEnv :=
  { demoEnv with
    block_keywords := ["bad"]
    block_threshold := "3"
    rtest := fun _ _ => some true }

/-- A plain text message. -/
def scenarioMsg : Msg := { text := "hello" }

/-- A verified, unblocked session with no prior keyword hits. -/
def scenarioSession : Session :=
  { user_state := .verified, is_blocked := false, block_count := 0, topic_id := none }

/-- A verified session whose is_blocked flag is set. -/
def blockedSession : Session :=
  { user_state := .verified, is_blocked := true, block_count := 0, topic_id := none }

/-- A session awaiting the verification answer. -/
def pendingSession : Session :=
  { user_state := .pending_verification, is_blocked := false, block_count := 0, topic_id := none }

/-- A verified session bound to topic T1. -/
def boundSession : Session :=
  { user_state := .verified, is_blocked := false, block_count := 0, topic_id := some "T1" }

/-- Filter switches with only the channel-forward sub-switch disabled. -/
def filtersChannelOff : Filters := { allowAllFilters with channel_forward := false }

/-- Environment for the channel-forward precedence scenario. -/
def envChannelOff : BotEnv := { demoEnv with filters := filtersChannelOff }

/-- A channel-forwarded message that also carries a url entity. -/
def msgChannelLink : Msg :=
  { text := "see link", forward_from_chat := some .channel, entities := some ["url"] }

/-- The keyword-block environment with the threshold config string set to 0. -/
def envThresholdZero : BotEnv := { scenarioEnv with block_threshold := "0" }

-- Helper lemmas shared by the claim theorems.

theorem stateRank_le_two (s : UserState) : stateRank s ≤ 2 := by
  cases s <;> simp [stateRank]

theorem verifiedStage_user_state (env : BotEnv) (m : Msg) (u : Session) :
    (verifiedStage env m u).session.user_state = u.user_state := by
  unfold verifiedStage
  dsimp only
  split
  · split <;> rfl
  · split
    · rfl
    · split <;> rfl

theorem stateDispatch_state_mono (env : BotEnv) (m : Msg) (u : Session) :
    stateRank u.user_state ≤ stateRank (stateDispatch env m u).session.user_state := by
  cases hus : u.user_state with
  | pending_verification =>
    by_cases hv : m.text = env.verif_a
    · simp [stateDispatch, hus, hv, stateRank]
    · simp [stateDispatch, hus, hv]
  | new => simp [stateDispatch, hus]
  | verified => simp [stateDispatch, hus, verifiedStage_user_state]

theorem step_state_mono (env : BotEnv) (m : Msg) (user : Session)
    (h1 : m.text ≠ "/start") (h2 : m.text ≠ "/help") :
    stateRank user.user_state ≤
      stateRank (handlePrivateMessage env m user).session.user_state := by
  unfold handlePrivateMessage
  rw [if_neg (by simp [h1, h2])]
  by_cases hb : user.is_blocked = true
  · rw [if_pos hb]
  · rw [if_neg hb]
    by_cases ha : env.isAdmin = true ∧ env.adminState.isSome = true
    · rw [if_pos ha]
    · rw [if_neg ha]
      by_cases hby : env.isAdmin = true ∧ user.user_state ≠ UserState.verified
      · rw [if_pos hby]
        refine le_trans ?_ (stateDispatch_state_mono env m _)
        simpa [stateRank] using stateRank_le_two user.user_state
      · rw [if_neg hby]
        exact stateDispatch_state_mono env m user

theorem handlePrivateMessage_nonadmin (env : BotEnv) (m : Msg) (user : Session)
    (hA : env.isAdmin = false) (hB : user.is_blocked = false)
    (h1 : m.text ≠ "/start") (h2 : m.text ≠ "/help") :
    handlePrivateMessage env m user = stateDispatch env m user := by
  unfold handlePrivateMessage
  rw [if_neg (by simp [h1, h2]), if_neg (by simp [hB]), if_neg (by simp [hA]),
    if_neg (by simp [hA])]

theorem verifiedStage_keyword_fires (env : BotEnv) (m : Msg) (user : Session)
    (hT : m.text ≠ "")
    (hMatch : ∃ k ∈ env.block_keywords, env.rtest k m.text = some true) :
    verifiedStage env m user =
      (if ((user.block_count + 1 : Nat) : Int) ≥ effectiveBlockThreshold env.block_threshold then
        ⟨{ user with block_count := user.block_count + 1, is_blocked := true },
         [.blockWarning (user.block_count + 1) (effectiveBlockThreshold env.block_threshold),
          .autoBlocked], false⟩
      else
        ⟨{ user with block_count := user.block_count + 1 },
         [.blockWarning (user.block_count + 1) (effectiveBlockThreshold env.block_threshold)],
         false⟩) := by
  have hne : env.block_keywords ≠ [] := by
    intro h0
    rw [h0] at hMatch
    simp at hMatch
  unfold verifiedStage
  rw [if_pos ⟨hne, hT, hMatch⟩]

theorem verifiedStage_keyword_silent (env : BotEnv) (m : Msg) (user : Session)
    (hNoBlock : ∀ k ∈ env.block_keywords, env.rtest k m.text ≠ some true) :
    verifiedStage env m user =
      (let fo := contentFilter env.filters m
       if fo.isForwardable = false then ⟨user, [.filtered fo.filterReason], false⟩
       else
         match (if env.auto_rules ≠ [] ∧ m.text ≠ "" then
                  findAutoReply env.rtest env.auto_rules m.text else none) with
         | some resp => ⟨user, [.autoReplyMsg resp], false⟩
         | none => ⟨user, [], true⟩) := by
  unfold verifiedStage
  rw [if_neg]
  rintro ⟨-, -, k, hk, hkt⟩
  exact hNoBlock k hk hkt

theorem contentFilter_channel_gate (f : Filters) (m : Msg)
    (hFwd : m.forward_from_chat = some ChatType.channel)
    (hAny : f.any_forward = true) (hCh : f.channel_forward = false) :
    contentFilter f m = ⟨false, reasonChannelForward⟩ := by
  unfold contentFilter
  simp [hFwd, hAny, hCh]

theorem splitOnColon_ne_nil (xs : List Char) : splitOnColon xs ≠ [] := by
  induction xs with
  | nil => simp [splitOnColon]
  | cons c rest ih =>
    unfold splitOnColon
    dsimp only
    split
    · simp
    · cases h : splitOnColon rest with
      | nil => exact absurd h ih
      | cons a t => simp

theorem splitOnColon_no_colon (xs : List Char) (h : ':' ∉ xs) :
    splitOnColon xs = [xs] := by
  induction xs with
  | nil => rfl
  | cons c rest ih =>
    have hc : c ≠ ':' := fun hc => h (hc ▸ List.mem_cons_self c rest)
    have hr : ':' ∉ rest := fun hr => h (List.mem_cons_of_mem c hr)
    unfold splitOnColon
    rw [if_neg hc, ih hr]

theorem splitOnColon_append (xs ys : List Char) (h : ':' ∉ xs) :
    splitOnColon (xs ++ ':' :: ys) = xs :: splitOnColon ys := by
  induction xs with
  | nil => simp [splitOnColon]
  | cons c rest ih =>
    have hc : c ≠ ':' := fun hc => h (hc ▸ List.mem_cons_self c rest)
    have hr : ':' ∉ rest := fun hr => h (List.mem_cons_of_mem c hr)
    rw [List.cons_append]
    simp only [splitOnColon]
    rw [ih hr]
    simp [hc]

/-- C1: the claim as stated is false. A non-admin session that is already
verified and then sends /start is moved back to pending_verification by
handleStart, which sets user_state unconditionally: a later event does
move a verified session backwards. -/
theorem C1_counterexample :
    (handlePrivateMessage demoEnv { text := "/start" } scenarioSession).session.user_state =
      UserState.pending_verification ∧
    scenarioSession.user_state = UserState.verified ∧
    stateRank UserState.pending_verification < stateRank UserState.verified := by
  decide

/-- C1 (amended): over any sequence of inbound private messages none of
which is /start or /help, the persisted verification state only moves
forward along new → pending_verification → verified (admin force-verify
included); /start and /help on a non-admin session reset the state to
pending_verification regardless of the previous state. -/
theorem C1_amended_state_monotone (env : BotEnv) (msgs : List Msg) (s : Session)
    (h : ∀ m ∈ msgs, m.text ≠ "/start" ∧ m.text ≠ "/help") :
    stateRank s.user_state ≤ stateRank (runMessages env msgs s).user_state := by
  induction msgs generalizing s with
  | nil => simp [runMessages]
  | cons m rest ih =>
    have hm := h m (List.mem_cons_self m rest)
    have hstep := step_state_mono env m s hm.1 hm.2
    have hrest := ih (handlePrivateMessage env m s).session
      (fun m' hm' => h m' (List.mem_cons_of_mem m hm'))
    have hrun : runMessages env (m :: rest) s
        = runMessages env rest (handlePrivateMessage env m s).session := by
      simp [runMessages]
    rw [hrun]
    exact le_trans hstep hrest

/-- C1 witness: the amended monotonicity at a concrete new session and a
concrete non-command message sequence. -/
theorem C1_amended_state_monotone_witness :
    stateRank scenarioSession.user_state ≤
      stateRank (runMessages demoEnv [scenarioMsg, scenarioMsg] scenarioSession).user_state :=
  C1_amended_state_monotone demoEnv [scenarioMsg, scenarioMsg] scenarioSession (by decide)

/-- C2: the claim as stated is false. A blocked session sending exactly
"/start" is not dropped silently: the command dispatch runs before the
block check, so handleStart replies with the welcome message and the
verification question and rewrites the session state. -/
theorem C2_counterexample :
    blockedSession.is_blocked = true ∧
    (handlePrivateMessage demoEnv { text := "/start" } blockedSession).replies =
      [Reply.welcome "w", Reply.verifQuestion "q"] ∧
    (handlePrivateMessage demoEnv { text := "/start" } blockedSession).replies ≠ [] ∧
    (handlePrivateMessage demoEnv { text := "/start" } blockedSession).session ≠ blockedSession := by
  decide

/-- C2 (amended): for every inbound private message whose session has
blocked = true and whose text is neither "/start" nor "/help", the block
check fires first and the result is a silent drop: no reply, no session
change, no later stage, no forward. -/
theorem C2_amended_blocked_drop (env : BotEnv) (m : Msg) (user : Session)
    (hb : user.is_blocked = true) (h1 : m.text ≠ "/start") (h2 : m.text ≠ "/help") :
    handlePrivateMessage env m user = ⟨user, [], false⟩ := by
  unfold handlePrivateMessage
  rw [if_neg (by simp [h1, h2]), if_pos hb]

/-- C2 witness: the amended silent drop at a concrete blocked session and
plain text message. -/
theorem C2_amended_blocked_drop_witness :
    handlePrivateMessage demoEnv scenarioMsg blockedSession = ⟨blockedSession, [], false⟩ :=
  C2_amended_blocked_drop demoEnv scenarioMsg blockedSession rfl (by decide) (by decide)

/-- C3: the claim as stated is false. When the copy to the bound thread
fails and the replacement thread is created successfully, the replacement
binding is persisted by createTopicForUser before the retry; if the retry
copy then also fails, the user gets the failure notice but the session is
left bound to the replacement topic T2 — not thread-less. -/
theorem C3_counterexample :
    handleRelayToTopic boundSession CreateOutcome.failCreate (CreateOutcome.ok "T2")
        false false true =
      ⟨some "T2", [RelayNotice.copyFail], none, false⟩ ∧
    (handleRelayToTopic boundSession CreateOutcome.failCreate (CreateOutcome.ok "T2")
        false false true).finalTopic ≠ none := by
  decide

/-- C3 (amended): for a session bound to a thread, a failed copy clears the
old binding, creates a replacement thread and retries the copy exactly
once. A successful retry lands the message in the replacement thread; a
failed retry sends the failure notice and leaves the session bound to the
replacement thread (so the next message reuses it); only when creating the
replacement thread itself fails is the session left thread-less, with the
create-failure notice. -/
theorem C3_amended_retry_keeps_binding (user : Session) (t id2 : String)
    (o1 : CreateOutcome) (hasText : Bool) (hT : user.topic_id = some t) :
    handleRelayToTopic user o1 (.ok id2) false true hasText =
      ⟨some id2, [], some id2, hasText⟩ ∧
    handleRelayToTopic user o1 (.ok id2) false false hasText =
      ⟨some id2, [RelayNotice.copyFail], none, false⟩ ∧
    handleRelayToTopic user o1 .failCreate false false hasText =
      ⟨none, [RelayNotice.recreateFail], none, false⟩ := by
  refine ⟨?_, ?_, ?_⟩ <;> simp [handleRelayToTopic, hT, relayCopyPhase]

/-- C3 witness: the amended retry/binding behaviour at the concrete bound
session and concrete transport outcomes. -/
theorem C3_amended_retry_keeps_binding_witness :
    handleRelayToTopic boundSession CreateOutcome.failCreate (CreateOutcome.ok "T2")
        false false true =
      ⟨some "T2", [RelayNotice.copyFail], none, false⟩ :=
  (C3_amended_retry_keeps_binding boundSession "T1" "T2" CreateOutcome.failCreate true rfl).2.1

/-- C4: the claim as stated is false. With expected answer "3", the answer
" 3" — the expected answer with leading whitespace, whose trimmed form
equals the expected answer — is rejected (verifyFail) and the session
stays pending: handleVerification compares the raw message text, it never
trims it. -/
theorem C4_counterexample :
    (" 3" : String) = " " ++ demoEnv.verif_a ∧
    (handlePrivateMessage demoEnv { text := " 3" } pendingSession).replies =
      [Reply.verifyFail] ∧
    (handlePrivateMessage demoEnv { text := " 3" } pendingSession).session.user_state =
      UserState.pending_verification := by
  decide

/-- C4 (amended): for every non-admin session in state pending_verification
and every answer text (other than the command texts), verification compares
the raw, untrimmed answer text with the configured expected answer by exact
case-sensitive string equality: only a literally equal answer transitions
to verified, any other answer — whitespace-padded copies of the expected
answer included — gets the error reply and leaves the state unchanged. -/
theorem C4_amended_untrimmed_exact (env : BotEnv) (m : Msg) (user : Session)
    (hA : env.isAdmin = false) (hP : user.user_state = .pending_verification)
    (hB : user.is_blocked = false) (h1 : m.text ≠ "/start") (h2 : m.text ≠ "/help") :
    handlePrivateMessage env m user =
      (if m.text = env.verif_a then
        ⟨{ user with user_state := .verified }, [.verifySuccess], false⟩
      else ⟨user, [.verifyFail], false⟩) := by
  rw [handlePrivateMessage_nonadmin env m user hA hB h1 h2]
  simp only [stateDispatch, hP]

/-- C4 witness: the amended exact-match behaviour at the concrete pending
session and the exactly matching answer. -/
theorem C4_amended_untrimmed_exact_witness :
    handlePrivateMessage demoEnv { text := "3" } pendingSession =
      (if ("3" : String) = demoEnv.verif_a then
        ⟨{ pendingSession with user_state := .verified }, [.verifySuccess], false⟩
      else ⟨pendingSession, [.verifyFail], false⟩) :=
  C4_amended_untrimmed_exact demoEnv { text := "3" } pendingSession rfl rfl rfl
    (by decide) (by decide)

/-- C5: for every verified, unblocked non-admin session with block_count c,
a non-empty non-command message matching some configured block pattern
increments the persisted count to c+1 and is never forwarded; when c+1
reaches the effective threshold the blocked flag is set and the final
notice follows the warning, otherwise only the count/threshold warning is
sent and blocked stays false. With threshold "3", two matching messages
leave blocked = false and block_count = 2 while the third sets
blocked = true. -/
theorem C5_keyword_block_counting (env : BotEnv) (m : Msg) (user : Session)
    (hA : env.isAdmin = false) (hV : user.user_state = .verified) (hB : user.is_blocked = false)
    (hT : m.text ≠ "") (h1 : m.text ≠ "/start") (h2 : m.text ≠ "/help")
    (hMatch : ∃ k ∈ env.block_keywords, env.rtest k m.text = some true) :
    handlePrivateMessage env m user =
      (if ((user.block_count + 1 : Nat) : Int) ≥ effectiveBlockThreshold env.block_threshold then
        ⟨{ user with block_count := user.block_count + 1, is_blocked := true },
         [.blockWarning (user.block_count + 1) (effectiveBlockThreshold env.block_threshold),
          .autoBlocked], false⟩
      else
        ⟨{ user with block_count := user.block_count + 1 },
         [.blockWarning (user.block_count + 1) (effectiveBlockThreshold env.block_threshold)],
         false⟩) ∧
    (runMessages scenarioEnv [scenarioMsg, scenarioMsg] scenarioSession).is_blocked = false ∧
    (runMessages scenarioEnv [scenarioMsg, scenarioMsg] scenarioSession).block_count = 2 ∧
    (runMessages scenarioEnv [scenarioMsg, scenarioMsg, scenarioMsg]
        scenarioSession).is_blocked = true ∧
    (runMessages scenarioEnv [scenarioMsg, scenarioMsg, scenarioMsg]
        scenarioSession).block_count = 3 := by
  refine ⟨?_, by decide, by decide, by decide, by decide⟩
  rw [handlePrivateMessage_nonadmin env m user hA hB h1 h2]
  simp only [stateDispatch, hV]
  rw [verifiedStage_keyword_fires env m user hT hMatch]
  simp [hV]

/-- C5 witness: the general increment/threshold behaviour at the concrete
threshold-3 scenario environment and session. -/
theorem C5_keyword_block_counting_witness :
    handlePrivateMessage scenarioEnv scenarioMsg scenarioSession =
      (if ((scenarioSession.block_count + 1 : Nat) : Int) ≥
          effectiveBlockThreshold scenarioEnv.block_threshold then
        ⟨{ scenarioSession with
            block_count := scenarioSession.block_count + 1
            is_blocked := true },
         [.blockWarning (scenarioSession.block_count + 1)
            (effectiveBlockThreshold scenarioEnv.block_threshold), .autoBlocked], false⟩
      else
        ⟨{ scenarioSession with block_count := scenarioSession.block_count + 1 },
         [.blockWarning (scenarioSession.block_count + 1)
            (effectiveBlockThreshold scenarioEnv.block_threshold)], false⟩) :=
  (C5_keyword_block_counting scenarioEnv scenarioMsg scenarioSession rfl rfl rfl
    (by decide) (by decide) (by decide) (by decide)).1

/-- C6: the content-type filter classifies by the fixed else-if precedence
and the category check runs before the isForwardable-guarded link check: a
channel-forwarded message that also contains a link, with any_forward
enabled, channel_forward disabled and links enabled, is dropped with the
channel-forward reason, not the link reason, and the pipeline replies with
exactly that reason without forwarding. -/
theorem C6_filter_precedence (env : BotEnv) (m : Msg) (user : Session)
    (hA : env.isAdmin = false) (hV : user.user_state = .verified) (hB : user.is_blocked = false)
    (h1 : m.text ≠ "/start") (h2 : m.text ≠ "/help")
    (hNoBlock : ∀ k ∈ env.block_keywords, env.rtest k m.text ≠ some true)
    (hFwd : m.forward_from_chat = some ChatType.channel)
    (_hLinks : hasLinks m = true)
    (hAny : env.filters.any_forward = true)
    (hCh : env.filters.channel_forward = false)
    (_hLink : env.filters.link = true) :
    contentFilter env.filters m = ⟨false, reasonChannelForward⟩ ∧
    handlePrivateMessage env m user = ⟨user, [.filtered reasonChannelForward], false⟩ := by
  have hcf := contentFilter_channel_gate env.filters m hFwd hAny hCh
  refine ⟨hcf, ?_⟩
  rw [handlePrivateMessage_nonadmin env m user hA hB h1 h2]
  simp only [stateDispatch, hV]
  rw [verifiedStage_keyword_silent env m user hNoBlock]
  simp [hcf]

/-- C6 witness: the channel-over-link precedence at a concrete
channel-forwarded message carrying a url entity. -/
theorem C6_filter_precedence_witness :
    contentFilter envChannelOff.filters msgChannelLink = ⟨false, reasonChannelForward⟩ ∧
    handlePrivateMessage envChannelOff msgChannelLink scenarioSession =
      ⟨scenarioSession, [.filtered reasonChannelForward], false⟩ :=
  C6_filter_precedence envChannelOff msgChannelLink scenarioSession rfl rfl rfl
    (by decide) (by decide) (by decide) rfl (by decide) rfl rfl rfl

/-- C7: edit reconciliation round-trips the ledger. With a stored entry
(text A, sent at T) for the edited message, the thread notification carries
the original text A, the original time T and the new text B, and the entry
is overwritten to (text B, sent at T) — timestamp preserved, text
replaced. Without a stored entry, the notification still reaches the
thread carrying the new text, with the original content reported
unavailable. -/
theorem C7_edit_reconciliation (topic a b ecaption : String) (T : Nat)
    (ha : a ≠ "") (hb : b ≠ "") :
    handleRelayEditedMessage (some topic) (some ⟨a, T⟩) b ecaption =
      ⟨some ⟨a, DateRepr.known T, b⟩, some ⟨b, T⟩⟩ ∧
    handleRelayEditedMessage (some topic) none b ecaption =
      ⟨some ⟨origTextFallback, DateRepr.unknown, b⟩, none⟩ := by
  unfold handleRelayEditedMessage jsOr
  constructor
  · simp [ha, hb]
  · simp [hb]

/-- C7 witness: the round-trip at the concrete entry (text A, sent at 42)
edited to text B. -/
theorem C7_edit_reconciliation_witness :
    handleRelayEditedMessage (some "t") (some ⟨"A", 42⟩) "B" "" =
      ⟨some ⟨"A", DateRepr.known 42, "B"⟩, some ⟨"B", 42⟩⟩ ∧
    handleRelayEditedMessage (some "t") none "B" "" =
      ⟨some ⟨origTextFallback, DateRepr.unknown, "B"⟩, none⟩ :=
  C7_edit_reconciliation "t" "A" "B" "" 42 (by decide) (by decide)

/-- C8: the claim as stated is false. The delete button for the block
keyword "a:b" encodes config:delete:block_keywords:a:b, but the decoder
splits on every colon and hands the handler only parts[3] = "a": an
identity containing a colon does not round-trip. -/
theorem C8_counterexample :
    decodeDeleteCallback (encodeDeleteCallback ("block_keywords".data) ("a:b".data)) =
      (some ("block_keywords".data), some ("a".data)) ∧
    ("a".data : List Char) ≠ "a:b".data := by
  decide

/-- C8 (amended): the config:delete:key:id encoding round-trips exactly
for every key and identity that contain no colon — the decoder recovers
precisely the encoded key and identity; an identity containing a colon is
truncated at its first colon by the split-based decoder. -/
theorem C8_amended_roundtrip (key id : List Char) (hk : ':' ∉ key) (hi : ':' ∉ id) :
    decodeDeleteCallback (encodeDeleteCallback key id) = (some key, some id) := by
  unfold decodeDeleteCallback encodeDeleteCallback
  have cdata : ("config:delete:".data : List Char)
      = "config".data ++ ':' :: ("delete".data ++ [':']) := by decide
  have e1 : "config:delete:".data ++ key ++ [':'] ++ id
      = "config".data ++ ':' :: ("delete".data ++ ':' :: (key ++ ':' :: id)) := by
    rw [cdata]
    simp [List.append_assoc]
  rw [e1, splitOnColon_append _ _ (by decide), splitOnColon_append _ _ (by decide),
    splitOnColon_append _ _ hk, splitOnColon_no_colon _ hi]
  rfl

/-- C8 witness: the amended round-trip at the concrete colon-free key and
identity used by the auto-reply delete buttons. -/
theorem C8_amended_roundtrip_witness :
    decodeDeleteCallback (encodeDeleteCallback ("keyword_responses".data) ("12345".data)) =
      (some ("keyword_responses".data), some ("12345".data)) :=
  C8_amended_roundtrip ("keyword_responses".data) ("12345".data) (by decide) (by decide)

/-- C9: the claim as stated is false. A callback from a non-admin sender
inside the admin group with data block:123 is not rejected: the block
handler runs and mutates the target session (is_blocked is set), with no
permission alert — only the config family checks isAdminUser. -/
theorem C9_counterexample :
    handleCallbackQueryModel false true ("block:123".data) =
      CbOutcome.blockUser ("123".data) ∧
    handleCallbackQueryModel false true ("block:123".data) ≠ CbOutcome.permissionAlert := by
  decide

/-- C9 (amended): only the config family is admin-gated — every config:*
callback from a non-admin is rejected with the permission alert and
nothing else runs; the block/unblock/pin_card families are gated only by
the message being in the admin group and execute regardless of the
sender's admin status. -/
theorem C9_amended_config_gate (g : Bool) (data : List Char)
    (h : data.take 7 = "config:".data) :
    handleCallbackQueryModel false g data = CbOutcome.permissionAlert ∧
    handleCallbackQueryModel false true ("unblock:9".data) = CbOutcome.unblockUser ("9".data) ∧
    handleCallbackQueryModel false true ("pin_card:9".data) = CbOutcome.pinFlow := by
  refine ⟨?_, by decide, by decide⟩
  unfold handleCallbackQueryModel
  rw [if_pos h]
  simp

/-- C9 witness: the amended gating at a concrete config:menu callback from
a non-admin. -/
theorem C9_amended_config_gate_witness :
    handleCallbackQueryModel false true ("config:menu".data) = CbOutcome.permissionAlert :=
  (C9_amended_config_gate true ("config:menu".data) (by decide)).1

/-- C10: when the resolved block_threshold config does not parse as a
nonzero integer under parseInt (non-numeric, empty, or "0"), the
keyword-block stage uses the hardcoded threshold 5: a matching message
still increments the count, and the session is auto-blocked exactly when
the incremented count reaches 5 — a configured "0" does not block
immediately. -/
theorem C10_threshold_fallback (env : BotEnv) (m : Msg) (user : Session)
    (hA : env.isAdmin = false) (hV : user.user_state = .verified) (hB : user.is_blocked = false)
    (hT : m.text ≠ "") (h1 : m.text ≠ "/start") (h2 : m.text ≠ "/help")
    (hMatch : ∃ k ∈ env.block_keywords, env.rtest k m.text = some true)
    (hThr : jsParseInt10 env.block_threshold = none ∨
      jsParseInt10 env.block_threshold = some 0) :
    effectiveBlockThreshold env.block_threshold = 5 ∧
    (handlePrivateMessage env m user).session.is_blocked = decide (5 ≤ user.block_count + 1) ∧
    (handlePrivateMessage env m user).session.block_count = user.block_count + 1 ∧
    effectiveBlockThreshold "0" = 5 ∧
    effectiveBlockThreshold "" = 5 ∧
    effectiveBlockThreshold "abc" = 5 := by
  have h5 : effectiveBlockThreshold env.block_threshold = 5 := by
    unfold effectiveBlockThreshold
    rcases hThr with h | h <;> simp [h]
  have hred : handlePrivateMessage env m user =
      (if ((user.block_count + 1 : Nat) : Int) ≥ 5 then
        ⟨{ user with
            block_count := user.block_count + 1
            is_blocked := true },
         [.blockWarning (user.block_count + 1) 5, .autoBlocked], false⟩
      else
        ⟨{ user with block_count := user.block_count + 1 },
         [.blockWarning (user.block_count + 1) 5], false⟩) := by
    rw [handlePrivateMessage_nonadmin env m user hA hB h1 h2]
    simp only [stateDispatch, hV]
    rw [verifiedStage_keyword_fires env m user hT hMatch, h5]
    simp [hV]
  refine ⟨h5, ?_, ?_, by decide, by decide, by decide⟩
  · rw [hred]
    by_cases hge : ((user.block_count + 1 : Nat) : Int) ≥ 5
    · rw [if_pos hge]
      have h' : 5 ≤ user.block_count + 1 := by exact_mod_cast hge
      simp [h']
    · rw [if_neg hge]
      have h' : ¬ 5 ≤ user.block_count + 1 := fun hc => hge (by exact_mod_cast hc)
      simp [hB, h']
  · rw [hred]
    split <;> rfl

/-- C10 witness: the fallback at the concrete environment whose
block_threshold config string is "0". -/
theorem C10_threshold_fallback_witness :
    effectiveBlockThreshold envThresholdZero.block_threshold = 5 ∧
    (handlePrivateMessage envThresholdZero scenarioMsg scenarioSession).session.is_blocked =
      decide (5 ≤ scenarioSession.block_count + 1) ∧
    (handlePrivateMessage envThresholdZero scenarioMsg scenarioSession).session.block_count =
      scenarioSession.block_count + 1 ∧
    effectiveBlockThreshold "0" = 5 ∧
    effectiveBlockThreshold "" = 5 ∧
    effectiveBlockThreshold "abc" = 5 :=
  C10_threshold_fallback envThresholdZero scenarioMsg scenarioSession rfl rfl rfl
    (by decide) (by decide) (by decide) (by decide) (Or.inr (by decide))
